import Mathlib

/-!
# Verification of the mock HTTP output server (`src/server.js`)

Shallow embedding of the chaos-behavior core of the server:

* the Behavior Store (`DEFAULT_BEHAVIOR`, `POST /api/behavior`,
  `POST /api/behavior/reset`, `GET /api/behavior`);
* the Request Recorder (`logReceived`, bounded by `MAX_LOG`);
* the Upload Responder (`handle`).

JavaScript values appearing in the control payload are modelled on the
integer fragment: a field is either a number (`JSPrim.num`, with the JS
number restricted to integral values, which is all the program and its
spec exercise) or a string (`JSPrim.str`).  `Number(x)` is modelled by
`jsToNumber` (`none` plays the role of `NaN`), and the JS `||` fallback on
numbers by `jsOrNum` (both `NaN` and `0` are falsy).  Absent-or-`null`
fields are `Option.none` (the code guards them with `!= null`).

`id` and `time` of a log entry come from the clock and the random number
generator; they are environment inputs with no bearing on any claim and are
omitted from the `LogEntry` record.
-/

/-- JS truthiness of an optional string: `undefined`, `null` and `""` are
falsy, every other string is truthy. -/
def strTruthy : Option String → Bool
  | none => false
  | some s => s ≠ ""

/-- A JS primitive appearing in a numeric control field (integer fragment). -/
inductive JSPrim where
  | num (n : Int)
  | str (s : String)
deriving DecidableEq, Repr

/-- Decimal digits of a numeric string, accumulated left to right; any
non-digit character makes the whole string unparseable. -/
def parseDigitsAux : List Char → Nat → Option Nat
  | [], acc => some acc
  | c :: cs, acc =>
    if c.isDigit then parseDigitsAux cs (acc * 10 + (c.toNat - 48)) else none

/-- JS `Number(s)` on the string fragment the program exercises: the empty
string converts to `0` (as in JS), an optionally `-`-signed decimal integer
string to its value, and anything else to `NaN` (`none`).  Whitespace
trimming, `+` signs, fractions and non-decimal radixes are outside the
modelled fragment. -/
def jsStringToNumber (s : String) : Option Int :=
  match s.data with
  | [] => some 0
  | '-' :: [] => none
  | '-' :: cs => (parseDigitsAux cs 0).map fun n => -(n : Int)
  | cs => (parseDigitsAux cs 0).map fun n => (n : Int)

/-- JS `Number(x)` on the modelled fragment: a number converts to itself,
strings via `jsStringToNumber`; `none` stands for `NaN`. -/
def jsToNumber : JSPrim → Option Int
  | .num n => some n
  | .str s => jsStringToNumber s

/-- JS `x || d` where `x` is the result of `Number(...)`: `NaN` (`none`) and
`0` are falsy and select the fallback `d`. -/
def jsOrNum (x : Option Int) (d : Int) : Int :=
  match x with
  | none => d
  | some n => if n = 0 then d else n

-- ── Behavior (chaos) state ──────────────────────────────────────────────────

/-- The `behavior` record of `server.js`.  `mode` is stored as the raw string
the code keeps, so that the mode invariant is a theorem, not a typing
artifact. -/
structure Behavior where
  mode : String
  errorCode : Int
  errorMessage : String
  delayMs : Int
deriving DecidableEq, Repr

/-- The `DEFAULT_BEHAVIOR` record from `server.js`. -/
def DEFAULT_BEHAVIOR : Behavior :=
  { mode := "normal", errorCode := 500, errorMessage := "", delayMs := 0 }

/-- The enumerated mode strings `['normal', 'error', 'timeout']`. -/
def MODES : List String := ["normal", "error", "timeout"]

/-- The JSON body of `POST /api/behavior`: each field is either absent/null
(`none`) or present. -/
structure BehaviorPatch where
  mode : Option String
  errorCode : Option JSPrim
  errorMessage : Option String
  delayMs : Option JSPrim
deriving DecidableEq, Repr

/-- Result of `POST /api/behavior`: a 400 validation failure with an error
body, or a 200 echo of the (updated) behavior. -/
inductive SetResponse where
  | invalid (error : String)
  | ok (b : Behavior)
deriving DecidableEq, Repr

/-- The `POST /api/behavior` handler: validation of `mode`, then field-wise
application, returning the new state and the response.  Mirrors
`server.js` lines 123–133. -/
def postBehavior (st : Behavior) (b : BehaviorPatch) : Behavior × SetResponse :=
  -- if (b.mode && !['normal','error','timeout'].includes(b.mode)) return 400
  if strTruthy b.mode && !(MODES.contains (b.mode.getD "")) then
    (st, .invalid "mode must be normal, error, or timeout")
  else
    -- if (b.mode) behavior.mode = b.mode
    let st := if strTruthy b.mode then { st with mode := b.mode.getD "" } else st
    -- if (b.errorCode != null) behavior.errorCode = Number(b.errorCode) || 500
    let st := match b.errorCode with
      | none => st
      | some v => { st with errorCode := jsOrNum (jsToNumber v) 500 }
    -- if (b.errorMessage != null) behavior.errorMessage = String(b.errorMessage)
    let st := match b.errorMessage with
      | none => st
      | some s => { st with errorMessage := s }
    -- if (b.delayMs != null) behavior.delayMs = Math.max(0, Number(b.delayMs) || 0)
    let st := match b.delayMs with
      | none => st
      | some v => { st with delayMs := max 0 (jsOrNum (jsToNumber v) 0) }
    (st, .ok st)

/-- Handler of `POST /api/behavior/reset`: the state becomes a copy of the defaults and
is echoed back. -/
def postBehaviorReset (_st : Behavior) : Behavior × Behavior :=
  ({ DEFAULT_BEHAVIOR with }, { DEFAULT_BEHAVIOR with })

/-- Handler of `GET /api/behavior`: returns the current behavior, no side effect. -/
def getBehavior (st : Behavior) : Behavior := st

-- ── Request log (newest first) ──────────────────────────────────────────────

/-- Metadata of an uploaded file as the handlers see it (`originalname`,
`name` and `size` may each be absent on the JS object). -/
structure FileInfo where
  originalname : Option String
  name : Option String
  size : Option Int
deriving DecidableEq, Repr

/-- The parts of the incoming request the core reads: method, path, the
multer attachment `req.file`, the fallback `req.files?.pdf`, and whether an
`Authorization` header was present. -/
structure ReqInfo where
  method : String
  path : String
  file : Option FileInfo
  files_pdf : Option FileInfo
  hasAuth : Bool
deriving DecidableEq, Repr

/-- A recorded inbox entry (`id` and `time` omitted, see the header note). -/
structure LogEntry where
  method : String
  path : String
  fileName : Option String
  fileSize : Option Int
  hasAuth : Bool
  responseStatus : Int
  note : Option String
  chaosMode : String
deriving DecidableEq, Repr

/-- The `MAX_LOG` constant from `server.js`. -/
def MAX_LOG : Nat := 200

/-- JS `file?.originalname || file?.name || null` over an optional file. -/
def fileDisplayName (file : Option FileInfo) : Option String :=
  match file with
  | none => none
  | some f =>
    if strTruthy f.originalname then f.originalname
    else if strTruthy f.name then f.name
    else none

/-- The entry `logReceived` constructs (the object literal passed to
`unshift`), reading the current behavior for `chaosMode`. -/
def mkLogEntry (behavior : Behavior) (req : ReqInfo) (responseStatus : Int)
    (note : Option String) : LogEntry :=
  let file := match req.file with
    | some f => some f
    | none => req.files_pdf
  { method := req.method
    path := req.path
    fileName := fileDisplayName file
    fileSize := match file with
      | none => none
      | some f => f.size            -- file?.size ?? null keeps a present 0
    hasAuth := req.hasAuth
    responseStatus := responseStatus
    note := if strTruthy note then note else none  -- note || null
    chaosMode := behavior.mode }

/-- The `logReceived` function from `server.js`: prepend the new entry; when the length
exceeds `MAX_LOG`, pop the last (oldest) entry. -/
def logReceived (behavior : Behavior) (req : ReqInfo) (responseStatus : Int)
    (note : Option String) (log : List LogEntry) : List LogEntry :=
  let log := mkLogEntry behavior req responseStatus note :: log
  if log.length > MAX_LOG then log.dropLast else log

/-- Folding `logReceived` over a sequence of recording calls, oldest call
first (each tuple is one `logReceived(req, status, note)` call together with
the behavior current at that moment). -/
def recordMany (inputs : List (Behavior × ReqInfo × Int × Option String))
    (log : List LogEntry) : List LogEntry :=
  inputs.foldl (fun l i => logReceived i.1 i.2.1 i.2.2.1 i.2.2.2 l) log

/-- Handler of `POST /api/inbox/clear`: empties the log. -/
def postInboxClear (_log : List LogEntry) : List LogEntry := []

-- ── Upload handler ──────────────────────────────────────────────────────────

/-- The fixed `ERROR_MESSAGES` code→phrase table. -/
def ERROR_MESSAGES : Int → Option String
  | 400 => some "Bad Request"
  | 401 => some "Unauthorized"
  | 403 => some "Forbidden"
  | 404 => some "Not Found"
  | 408 => some "Request Timeout"
  | 429 => some "Too Many Requests"
  | 500 => some "Internal Server Error"
  | 502 => some "Bad Gateway"
  | 503 => some "Service Unavailable"
  | 504 => some "Gateway Timeout"
  | _ => none

/-- Body of the upload response: the error payload `{error: msg}` or the
normal payload `{ok, message, filename}`. -/
inductive UploadBody where
  | err (error : String)
  | ok (ok : Bool) (message : String) (filename : Option String)
deriving DecidableEq, Repr

/-- An HTTP response from the upload handler. -/
structure UploadResponse where
  status : Int
  body : UploadBody
deriving DecidableEq, Repr

/-- The part of `handle` that runs after the optional `await delay(...)`
suspension: branch on the then-current behavior `b`, record, and either
respond (`some r`) or deliberately withhold the response (`none`). -/
def respond (b : Behavior) (req : ReqInfo) (log : List LogEntry) :
    List LogEntry × Option UploadResponse :=
  if b.mode = "timeout" then
    (logReceived b req 0 (some "timeout (no response sent)") log, none)
  else if b.mode = "error" then
    -- const code = behavior.errorCode || 500
    let code := if b.errorCode = 0 then 500 else b.errorCode
    -- const msg = behavior.errorMessage || ERROR_MESSAGES[code] || `Error ${code}`
    let msg :=
      if b.errorMessage ≠ "" then b.errorMessage
      else match ERROR_MESSAGES code with
        | some m => m
        | none => "Error " ++ toString code
    (logReceived b req code (some ("chaos: " ++ msg)) log,
      some { status := code, body := .err msg })
  else
    (logReceived b req 200 none log,
      some { status := 200,
             body := UploadBody.ok true "PDF received" (fileDisplayName req.file) })

/-- The `handle` function from `server.js`.  The global `behavior` is read at two
scheduling points: `bStart` is its value on entry (only `delayMs` is read
there, to decide whether to suspend), and `bResume` is its value when the
handler resumes after `await delay(...)` — every later read (`mode`,
`errorCode`, `errorMessage`, and `chaosMode` inside `logReceived`) happens
in that single post-delay turn.  When `bStart.delayMs ≤ 0` there is no
suspension, so the branch still sees `bStart`. -/
def handle (bStart bResume : Behavior) (req : ReqInfo) (log : List LogEntry) :
    List LogEntry × Option UploadResponse :=
  respond (if bStart.delayMs > 0 then bResume else bStart) req log

-- ── Concrete sample inputs used by counterexamples and witnesses ────────────

/-- A minimal upload request with no attachment and no auth header. -/
def bareReq : ReqInfo :=
  { method := "POST", path := "/upload", file := none, files_pdf := none,
    hasAuth := false }

/-- A request carrying a file named "doc.pdf" of size 17. -/
def pdfReq : ReqInfo :=
  { method := "POST", path := "/upload",
    file := some { originalname := some "doc.pdf", name := none, size := some 17 },
    files_pdf := none, hasAuth := true }

/-- Behavior at the start of a delayed request: normal mode, 100 ms delay. -/
def bDelayedNormal : Behavior :=
  { mode := "normal", errorCode := 500, errorMessage := "", delayMs := 100 }

/-- Behavior after a mid-delay control switch to error mode. -/
def bSwitchedError : Behavior :=
  { mode := "error", errorCode := 500, errorMessage := "", delayMs := 100 }

/-- The effective error message as §4.3 of the spec words it: the explicit
`errorMessage` if set, else the fixed code→phrase table at `errorCode`, else
`"Error <code>"`.  Stated from the spec so the Error branch of `handle` can
be compared against it. -/
def specEffectiveMessage (b : Behavior) : String :=
  if b.errorMessage ≠ "" then b.errorMessage
  else match ERROR_MESSAGES b.errorCode with
    | some m => m
    | none => "Error " ++ toString b.errorCode

/-- The Behavior invariant of §3 of the spec: `mode` is one of the three
enumerated values and `delayMs` is non-negative. -/
def validBehavior (b : Behavior) : Prop := b.mode ∈ MODES ∧ 0 ≤ b.delayMs

/-- Error-mode behavior with code 503 and no custom message. -/
def bErr503 : Behavior :=
  { mode := "error", errorCode := 503, errorMessage := "", delayMs := 0 }

/-- The patch `{mode: "", delayMs: 7}`: its `mode` is a string outside the
enumerated set, yet falsy. -/
def emptyModePatch : BehaviorPatch :=
  { mode := some "", errorCode := none, errorMessage := none,
    delayMs := some (.num 7) }

/-- A list of 205 identical recording calls, for exercising the log cap. -/
def sampleInputs : List (Behavior × ReqInfo × Int × Option String) :=
  List.replicate 205 (DEFAULT_BEHAVIOR, bareReq, 200, none)

-- quick sanity examples
example : (postBehavior DEFAULT_BEHAVIOR
    { mode := some "bogus", errorCode := none, errorMessage := none,
      delayMs := none }).2 =
    .invalid "mode must be normal, error, or timeout" := by decide

example : (postBehavior DEFAULT_BEHAVIOR
    { mode := some "error", errorCode := some (.num 503), errorMessage := none,
      delayMs := none }).1.errorCode = 503 := by decide

example :
    (handle { DEFAULT_BEHAVIOR with mode := "error", errorCode := 503 }
      { DEFAULT_BEHAVIOR with mode := "error", errorCode := 503 }
      bareReq []).2 =
    some { status := 503, body := .err "Service Unavailable" } := by decide

example : (handle bDelayedNormal bSwitchedError bareReq []).2 =
    some { status := 500, body := .err "Internal Server Error" } := by decide

-- ── Helper lemmas ───────────────────────────────────────────────────────────

lemma take_append_take {α : Type} (A B : List α) (n : Nat) :
    (A ++ B.take n).take n = (A ++ B).take n := by
  rw [List.take_append_eq_append_take, List.take_append_eq_append_take,
    List.take_take, Nat.min_eq_left (Nat.sub_le n A.length)]

lemma logReceived_unfold (b : Behavior) (req : ReqInfo) (s : Int)
    (n : Option String) (log : List LogEntry) :
    logReceived b req s n log =
      if (mkLogEntry b req s n :: log).length > MAX_LOG
      then (mkLogEntry b req s n :: log).dropLast
      else (mkLogEntry b req s n :: log) := rfl

lemma logReceived_of_length_le (b : Behavior) (req : ReqInfo) (s : Int)
    (n : Option String) (log : List LogEntry) (h : log.length ≤ MAX_LOG) :
    logReceived b req s n log = (mkLogEntry b req s n :: log).take MAX_LOG := by
  rw [logReceived_unfold]
  by_cases hlen : (mkLogEntry b req s n :: log).length > MAX_LOG
  · have h200 : log.length = MAX_LOG := by
      simp only [List.length_cons] at hlen; omega
    rw [if_pos hlen, List.dropLast_eq_take]
    congr 1
  · rw [if_neg hlen]
    simp only [List.length_cons] at hlen
    exact (List.take_of_length_le (by simp only [List.length_cons]; omega)).symm

lemma length_logReceived_le (b : Behavior) (req : ReqInfo) (s : Int)
    (n : Option String) (log : List LogEntry) (h : log.length ≤ MAX_LOG) :
    (logReceived b req s n log).length ≤ MAX_LOG := by
  rw [logReceived_of_length_le b req s n log h]
  simp [List.length_take]

lemma head_logReceived (b : Behavior) (req : ReqInfo) (s : Int)
    (n : Option String) (log : List LogEntry) :
    (logReceived b req s n log).head? = some (mkLogEntry b req s n) := by
  rw [logReceived_unfold]
  split
  · next hlen =>
    cases log with
    | nil => simp [MAX_LOG] at hlen
    | cons a l => rfl
  · rfl

/-- One recording call, written as input tuple: `recordMany` folds this. -/
lemma recordMany_cons (i : Behavior × ReqInfo × Int × Option String)
    (is : List (Behavior × ReqInfo × Int × Option String)) (log : List LogEntry) :
    recordMany (i :: is) log = recordMany is (logReceived i.1 i.2.1 i.2.2.1 i.2.2.2 log) := rfl

lemma recordMany_eq (inputs : List (Behavior × ReqInfo × Int × Option String))
    (log : List LogEntry) (h : log.length ≤ MAX_LOG) :
    recordMany inputs log =
      ((inputs.map fun i => mkLogEntry i.1 i.2.1 i.2.2.1 i.2.2.2).reverse ++ log).take MAX_LOG := by
  induction inputs generalizing log with
  | nil =>
    simp only [recordMany, List.foldl_nil, List.map_nil, List.reverse_nil,
      List.nil_append]
    exact (List.take_of_length_le h).symm
  | cons i is ih =>
    rw [recordMany_cons, ih _ (length_logReceived_le _ _ _ _ _ h),
      logReceived_of_length_le _ _ _ _ _ h, take_append_take,
      List.map_cons, List.reverse_cons, List.append_assoc, List.singleton_append]

lemma handle_same (b : Behavior) (req : ReqInfo) (log : List LogEntry) :
    handle b b req log = respond b req log := by
  unfold handle
  split <;> rfl

lemma chaosMode_mkLogEntry (b : Behavior) (req : ReqInfo) (s : Int)
    (n : Option String) : (mkLogEntry b req s n).chaosMode = b.mode := rfl

lemma chaosMode_head_respond (b : Behavior) (req : ReqInfo) (log : List LogEntry) :
    ((respond b req log).1.head?.map LogEntry.chaosMode) = some b.mode := by
  unfold respond
  split
  · rw [head_logReceived]; rfl
  · split
    · rw [head_logReceived]; rfl
    · rw [head_logReceived]; rfl

lemma chaos_prefix_ne_empty (msg : String) : "chaos: " ++ msg ≠ "" := by
  intro h
  have hl := congrArg String.length h
  simp [String.length_append] at hl
  exact absurd hl.1 (by decide)

lemma responseStatus_mkLogEntry (b : Behavior) (req : ReqInfo) (s : Int)
    (n : Option String) : (mkLogEntry b req s n).responseStatus = s := rfl

lemma note_mkLogEntry_of_ne (b : Behavior) (req : ReqInfo) (s : Int)
    (t : String) (ht : t ≠ "") : (mkLogEntry b req s (some t)).note = some t := by
  simp [mkLogEntry, strTruthy, ht]

lemma jsOrNum_ne_zero (x : Option Int) : jsOrNum x 500 ≠ 0 := by
  unfold jsOrNum
  cases x with
  | none => decide
  | some n =>
    by_cases hn : n = 0
    · simp [hn]
    · simp [hn]

-- ── Claims ──────────────────────────────────────────────────────────────────

/-- C1, counterexample.  With the behavior at the start of handling in
`normal` mode (`bDelayedNormal`, delay 100 ms) and a mid-delay control switch
to `error` mode (`bSwitchedError`), `handle` takes the error branch and logs
`chaosMode = "error"`: the branch taken and the recorded `chaosMode` are NOT
determined by the mode current at the start of handling, because the code
reads `behavior.mode` only after `await delay(...)` returns. -/
theorem C1_counterexample :
    bDelayedNormal.mode = "normal" ∧ bDelayedNormal.delayMs > 0 ∧
    (handle bDelayedNormal bSwitchedError bareReq []).2 =
      some { status := 500, body := .err "Internal Server Error" } ∧
    ((handle bDelayedNormal bSwitchedError bareReq []).1.map LogEntry.chaosMode) =
      ["error"] ∧
    handle bDelayedNormal bSwitchedError bareReq [] ≠
      handle bDelayedNormal bDelayedNormal bareReq [] := by decide

/-- C1, amended: only `delayMs` is read at the start of handling; the branch
taken and the `chaosMode` recorded in the LogEntry are determined by the
Behavior current when the delay completes (`bResume`), so a control operation
that changes the mode while the request is waiting out its delay does alter
the branch taken.  Without a delay the Behavior read at entry governs. -/
theorem C1_behavior_reread_after_delay (bStart bResume : Behavior)
    (req : ReqInfo) (log : List LogEntry) :
    (bStart.delayMs > 0 →
      handle bStart bResume req log = respond bResume req log ∧
      ((handle bStart bResume req log).1.head?.map LogEntry.chaosMode) =
        some bResume.mode) ∧
    (bStart.delayMs ≤ 0 →
      handle bStart bResume req log = respond bStart req log ∧
      ((handle bStart bResume req log).1.head?.map LogEntry.chaosMode) =
        some bStart.mode) := by
  constructor
  · intro hd
    have he : handle bStart bResume req log = respond bResume req log := by
      unfold handle
      rw [if_pos hd]
    exact ⟨he, by rw [he, chaosMode_head_respond]⟩
  · intro hd
    have he : handle bStart bResume req log = respond bStart req log := by
      unfold handle
      rw [if_neg (by omega)]
    exact ⟨he, by rw [he, chaosMode_head_respond]⟩

/-- C1, witness for the amended theorem at concrete inputs. -/
theorem C1_behavior_reread_after_delay_witness :
    handle bDelayedNormal bSwitchedError bareReq [] =
      respond bSwitchedError bareReq [] ∧
    ((handle bDelayedNormal bSwitchedError bareReq []).1.head?.map
      LogEntry.chaosMode) = some bSwitchedError.mode :=
  (C1_behavior_reread_after_delay bDelayedNormal bSwitchedError bareReq []).1
    (by decide)

/-- C2, counterexample.  `{mode: "", delayMs: 7}` carries a `mode` that is a
string outside `{normal, error, timeout}`, yet the call does NOT signal a
validation failure: it answers 200 and applies the accompanying `delayMs`,
because the guard `if (b.mode && ...)` treats the empty string as absent. -/
theorem C2_counterexample :
    ("" ∈ MODES → False) ∧
    postBehavior DEFAULT_BEHAVIOR emptyModePatch =
      ({ DEFAULT_BEHAVIOR with delayMs := 7 },
        .ok { DEFAULT_BEHAVIOR with delayMs := 7 }) ∧
    { DEFAULT_BEHAVIOR with delayMs := 7 } ≠ DEFAULT_BEHAVIOR := by decide

/-- C2, amended: for every set call whose `mode` field is a NON-EMPTY string
outside `{normal, error, timeout}`, the call answers 400 with
`{error: "mode must be normal, error, or timeout"}` and the entire Behavior
state is left unchanged, including any other fields supplied in the same
request; for every mode value in the enumerated set, `set({mode})` followed
by `get()` returns that mode.  (A `mode` equal to `""` is treated as absent:
no failure, and the other fields of the request are still applied.) -/
theorem C2_mode_validation (st : Behavior) (p : BehaviorPatch) (m : String) :
    (p.mode = some m → m ≠ "" → m ∉ MODES →
      postBehavior st p =
        (st, .invalid "mode must be normal, error, or timeout")) ∧
    (m ∈ MODES →
      (getBehavior (postBehavior st
        { mode := some m, errorCode := none, errorMessage := none,
          delayMs := none }).1).mode = m) := by
  constructor
  · intro hp hne hnotin
    unfold postBehavior
    rw [if_pos]
    simp only [hp, strTruthy, List.contains, List.elem_eq_mem, Bool.and_eq_true,
      Bool.not_eq_true', decide_eq_false_iff_not, Option.getD_some]
    refine ⟨by simpa using hne, by simpa using hnotin⟩
  · intro hm
    have hne : m ≠ "" := by
      intro h
      rw [h] at hm
      exact absurd hm (by decide)
    unfold postBehavior getBehavior
    rw [if_neg]
    · simp [strTruthy, hne]
    · simp only [strTruthy, List.contains, List.elem_eq_mem, Bool.and_eq_true,
        Bool.not_eq_true', decide_eq_false_iff_not, Option.getD_some, not_and]
      intro _
      simp [hm]

/-- C2, witness: the amended theorem applied at a rejected call
(`mode: "weird"`) and at an accepted one (`mode: "timeout"`). -/
theorem C2_mode_validation_witness :
    postBehavior DEFAULT_BEHAVIOR
      { mode := some "weird", errorCode := none, errorMessage := none,
        delayMs := some (.num 9) } =
      (DEFAULT_BEHAVIOR, .invalid "mode must be normal, error, or timeout") ∧
    (getBehavior (postBehavior DEFAULT_BEHAVIOR
      { mode := some "timeout", errorCode := none, errorMessage := none,
        delayMs := none }).1).mode = "timeout" :=
  ⟨(C2_mode_validation DEFAULT_BEHAVIOR
      { mode := some "weird", errorCode := none, errorMessage := none,
        delayMs := some (.num 9) } "weird").1 rfl (by decide) (by decide),
   (C2_mode_validation DEFAULT_BEHAVIOR
      { mode := none, errorCode := none, errorMessage := none,
        delayMs := none } "timeout").2 (by decide)⟩

/-- C3, counterexample.  `errorCode: 0` is parseable as a number (it converts
to `0`), yet the store falls back to 500 — `Number(b.errorCode) || 500`
treats the parsed `0` as falsy — so the fallback is not taken ONLY when the
value is unparseable. -/
theorem C3_counterexample :
    jsToNumber (.num 0) = some 0 ∧
    (postBehavior { DEFAULT_BEHAVIOR with errorCode := 503 }
      { mode := none, errorCode := some (.num 0), errorMessage := none,
        delayMs := none }).1.errorCode = 500 := by decide

/-- C3, amended: a provided `errorCode` is stored as its numeric conversion
when that conversion succeeds AND is nonzero, and falls back to 500 when the
value is not parseable or converts to `0`; a provided `delayMs` parseable as
a number `n` is stored as `max 0 n` (the clamp already yields `0` at `n = 0`,
so the zero-falsiness of `||` is invisible there), falling back to `0` when
not parseable. -/
theorem C3_numeric_coercion (st : Behavior) (v : JSPrim) (n : Int) :
    (jsToNumber v = some n → n ≠ 0 →
      (postBehavior st { mode := none, errorCode := some v,
                         errorMessage := none, delayMs := none }).1.errorCode = n) ∧
    (jsToNumber v = some 0 ∨ jsToNumber v = none →
      (postBehavior st { mode := none, errorCode := some v,
                         errorMessage := none, delayMs := none }).1.errorCode = 500) ∧
    (jsToNumber v = some n →
      (postBehavior st { mode := none, errorCode := none,
                         errorMessage := none, delayMs := some v }).1.delayMs = max 0 n) ∧
    (jsToNumber v = none →
      (postBehavior st { mode := none, errorCode := none,
                         errorMessage := none, delayMs := some v }).1.delayMs = 0) := by
  refine ⟨fun hv hn => ?_, fun hv => ?_, fun hv => ?_, fun hv => ?_⟩
  · simp [postBehavior, strTruthy, hv, jsOrNum, hn]
  · rcases hv with hv | hv <;> simp [postBehavior, strTruthy, hv, jsOrNum]
  · by_cases hn : n = 0
    · simp [postBehavior, strTruthy, hv, jsOrNum, hn]
    · simp [postBehavior, strTruthy, hv, jsOrNum, hn]
  · simp [postBehavior, strTruthy, hv, jsOrNum]

/-- C3, witness: the amended theorem at `errorCode: 418` (stored as 418),
`errorCode: "nope"` (unparseable, stored as 500) and `delayMs: -5`
(stored as `max 0 (-5) = 0`). -/
theorem C3_numeric_coercion_witness :
    (postBehavior DEFAULT_BEHAVIOR { mode := none, errorCode := some (.num 418),
                                     errorMessage := none, delayMs := none }).1.errorCode = 418 ∧
    (postBehavior DEFAULT_BEHAVIOR { mode := none, errorCode := some (.str "nope"),
                                     errorMessage := none, delayMs := none }).1.errorCode = 500 ∧
    (postBehavior DEFAULT_BEHAVIOR { mode := none, errorCode := none,
                                     errorMessage := none, delayMs := some (.num (-5)) }).1.delayMs = max 0 (-5) :=
  ⟨(C3_numeric_coercion DEFAULT_BEHAVIOR (.num 418) 418).1 rfl (by decide),
   (C3_numeric_coercion DEFAULT_BEHAVIOR (.str "nope") 0).2.1 (Or.inr (by decide)),
   (C3_numeric_coercion DEFAULT_BEHAVIOR (.num (-5)) (-5)).2.2.1 rfl⟩

lemma postBehavior_errorCode_ne_zero (st : Behavior) (p : BehaviorPatch)
    (h : st.errorCode ≠ 0) : ((postBehavior st p).1).errorCode ≠ 0 := by
  unfold postBehavior
  split
  · exact h
  · cases hec : p.errorCode with
    | none =>
      cases p.errorMessage <;> cases p.delayMs <;>
        by_cases hb : strTruthy p.mode <;> simp [hec, hb] <;> exact h
    | some v =>
      cases p.errorMessage <;> cases p.delayMs <;>
        by_cases hb : strTruthy p.mode <;> simp [hec, hb] <;>
        exact jsOrNum_ne_zero _

lemma respond_error (b : Behavior) (req : ReqInfo) (log : List LogEntry)
    (hm : b.mode = "error") (hc : b.errorCode ≠ 0) :
    respond b req log =
      (logReceived b req b.errorCode
        (some ("chaos: " ++ specEffectiveMessage b)) log,
        some { status := b.errorCode, body := .err (specEffectiveMessage b) }) := by
  unfold respond specEffectiveMessage
  rw [hm]
  simp [hc]

/-- C4: for every upload request handled while mode = `error` (with the
`errorCode ≠ 0` invariant that every reachable Behavior satisfies — see the
second through fourth conjuncts), the effective message is the explicit
`errorMessage` if set, else the code→phrase table entry for `errorCode`,
else `"Error <code>"`; a LogEntry is recorded with `responseStatus =
errorCode` and note `"chaos: <message>"`, and the response has that status
with body `{error: <message>}`. -/
theorem C4_error_mode (b : Behavior) (req : ReqInfo) (log : List LogEntry) :
    (b.mode = "error" → b.errorCode ≠ 0 →
      (handle b b req log).2 =
        some { status := b.errorCode, body := .err (specEffectiveMessage b) } ∧
      (handle b b req log).1 =
        logReceived b req b.errorCode
          (some ("chaos: " ++ specEffectiveMessage b)) log ∧
      ((handle b b req log).1.head?.map LogEntry.responseStatus) =
        some b.errorCode ∧
      ((handle b b req log).1.head?.map LogEntry.note) =
        some (some ("chaos: " ++ specEffectiveMessage b))) ∧
    DEFAULT_BEHAVIOR.errorCode ≠ 0 ∧
    (∀ (st : Behavior) (p : BehaviorPatch), st.errorCode ≠ 0 →
      ((postBehavior st p).1).errorCode ≠ 0) ∧
    (∀ st : Behavior, ((postBehaviorReset st).1).errorCode ≠ 0) := by
  refine ⟨fun hm hc => ?_, by decide, postBehavior_errorCode_ne_zero,
    fun st => by show (500 : Int) ≠ 0; decide⟩
  rw [handle_same, respond_error b req log hm hc]
  refine ⟨rfl, rfl, ?_, ?_⟩
  · rw [head_logReceived]
    rfl
  · rw [head_logReceived]
    rw [Option.map_some']
    rw [note_mkLogEntry_of_ne _ _ _ _ (chaos_prefix_ne_empty _)]

/-- C4, witness: mode `error` with `errorCode` 503 and no custom message
yields status 503, body `{error: "Service Unavailable"}`, and a LogEntry
with `responseStatus = 503` and note `"chaos: Service Unavailable"`. -/
theorem C4_error_mode_witness :
    (handle bErr503 bErr503 pdfReq []).2 =
      some { status := 503, body := .err "Service Unavailable" } ∧
    ((handle bErr503 bErr503 pdfReq []).1.head?.map LogEntry.responseStatus) =
      some 503 ∧
    ((handle bErr503 bErr503 pdfReq []).1.head?.map LogEntry.note) =
      some (some "chaos: Service Unavailable") := by
  have h := (C4_error_mode bErr503 pdfReq []).1 rfl (by decide)
  exact ⟨h.1, h.2.2.1, h.2.2.2⟩

/-- C5: for every upload request handled while mode = `timeout`, the log
gains the entry with `responseStatus = 0` and note
`"timeout (no response sent)"` at its head (exactly one entry per request:
the length grows by one, up to the cap), and no HTTP response is produced
(`none`) — nothing further happens on the request. -/
theorem C5_timeout_mode (b : Behavior) (req : ReqInfo) (log : List LogEntry) :
    b.mode = "timeout" →
      (handle b b req log).2 = none ∧
      (handle b b req log).1 =
        logReceived b req 0 (some "timeout (no response sent)") log ∧
      ((handle b b req log).1.head?.map LogEntry.responseStatus) = some 0 ∧
      ((handle b b req log).1.head?.map LogEntry.note) =
        some (some "timeout (no response sent)") ∧
      (log.length ≤ MAX_LOG →
        (handle b b req log).1.length = min MAX_LOG (log.length + 1)) := by
  intro hm
  have hresp : respond b req log =
      (logReceived b req 0 (some "timeout (no response sent)") log, none) := by
    unfold respond
    rw [hm]
    simp
  rw [handle_same, hresp]
  refine ⟨rfl, rfl, ?_, ?_, fun hlen => ?_⟩
  · rw [head_logReceived]
    rfl
  · rw [head_logReceived]
    rw [Option.map_some']
    rw [note_mkLogEntry_of_ne _ _ _ _ (by decide)]
  · rw [logReceived_of_length_le _ _ _ _ _ hlen]
    simp [List.length_take, Nat.min_comm]

/-- C5, witness: timeout mode at a concrete request and empty log. -/
theorem C5_timeout_mode_witness :
    (handle { DEFAULT_BEHAVIOR with mode := "timeout" }
      { DEFAULT_BEHAVIOR with mode := "timeout" } bareReq []).2 = none ∧
    ((handle { DEFAULT_BEHAVIOR with mode := "timeout" }
      { DEFAULT_BEHAVIOR with mode := "timeout" } bareReq []).1.head?.map
        LogEntry.note) = some (some "timeout (no response sent)") := by
  have h := C5_timeout_mode { DEFAULT_BEHAVIOR with mode := "timeout" }
    bareReq [] rfl
  exact ⟨h.1, h.2.2.2.1⟩

/-- C6: the request log never exceeds 200 entries and is newest-first: each
record operation prepends one entry and truncates to the most recent 200
(so when the cap is exceeded exactly the oldest entry is evicted), and
recording 205 entries into an empty log leaves exactly 200 entries — the
reverse of the inputs with the 5 oldest gone. -/
theorem C6_log_bounded (inputs : List (Behavior × ReqInfo × Int × Option String)) :
    (∀ (b : Behavior) (req : ReqInfo) (s : Int) (n : Option String)
        (log : List LogEntry), log.length ≤ MAX_LOG →
      logReceived b req s n log = (mkLogEntry b req s n :: log).take MAX_LOG ∧
      (logReceived b req s n log).length ≤ MAX_LOG) ∧
    (inputs.length = 205 →
      recordMany inputs [] =
        ((inputs.map fun i => mkLogEntry i.1 i.2.1 i.2.2.1 i.2.2.2).drop 5).reverse ∧
      (recordMany inputs []).length = 200) := by
  refine ⟨fun b req s n log h => ⟨logReceived_of_length_le b req s n log h,
    length_logReceived_le b req s n log h⟩, fun h205 => ?_⟩
  have key : recordMany inputs [] =
      ((inputs.map fun i => mkLogEntry i.1 i.2.1 i.2.2.1 i.2.2.2).drop 5).reverse := by
    have hlen : (inputs.map fun i => mkLogEntry i.1 i.2.1 i.2.2.1 i.2.2.2).length
        - MAX_LOG = 5 := by
      simp [h205, MAX_LOG]
    rw [recordMany_eq inputs [] (by simp), List.append_nil, List.take_reverse, hlen]
  refine ⟨key, ?_⟩
  rw [key]
  simp [h205]

/-- C6, witness: 205 concrete recording calls into the empty log. -/
theorem C6_log_bounded_witness :
    sampleInputs.length = 205 ∧
    recordMany sampleInputs [] =
      ((sampleInputs.map fun i => mkLogEntry i.1 i.2.1 i.2.2.1 i.2.2.2).drop 5).reverse ∧
    (recordMany sampleInputs []).length = 200 :=
  ⟨List.length_replicate _ _,
   ((C6_log_bounded sampleInputs).2 (List.length_replicate _ _)).1,
   ((C6_log_bounded sampleInputs).2 (List.length_replicate _ _)).2⟩

lemma postBehavior_mode_cases (st : Behavior) (p : BehaviorPatch) :
    ((postBehavior st p).1).mode = st.mode ∨ ((postBehavior st p).1).mode ∈ MODES := by
  unfold postBehavior
  split
  · left; rfl
  · next hguard =>
    by_cases hb : strTruthy p.mode
    · right
      have hcont : (p.mode.getD "") ∈ MODES := by
        by_contra hc
        exact hguard (by simp [hb, List.contains, List.elem_eq_mem, hc])
      cases p.errorCode <;> cases p.errorMessage <;> cases p.delayMs <;>
        simp [hb] <;> simpa using hcont
    · left
      cases p.errorCode <;> cases p.errorMessage <;> cases p.delayMs <;>
        simp [hb]

lemma postBehavior_delayMs_cases (st : Behavior) (p : BehaviorPatch) :
    ((postBehavior st p).1).delayMs = st.delayMs ∨
      0 ≤ ((postBehavior st p).1).delayMs := by
  unfold postBehavior
  split
  · left; rfl
  · cases hd : p.delayMs with
    | none =>
      left
      cases p.errorCode <;> cases p.errorMessage <;>
        by_cases hb : strTruthy p.mode <;> simp [hd, hb]
    | some v =>
      right
      cases p.errorCode <;> cases p.errorMessage <;>
        by_cases hb : strTruthy p.mode <;> simp [hd, hb, le_max_left]

/-- C7: after initialization, any set call and any reset, the stored mode is
one of the three enumerated values and `delayMs ≥ 0`; in particular
`set({delayMs: -5})` stores `delayMs = 0`. -/
theorem C7_behavior_invariant (st : Behavior) (p : BehaviorPatch) :
    validBehavior DEFAULT_BEHAVIOR ∧
    (validBehavior st → validBehavior (postBehavior st p).1) ∧
    validBehavior (postBehaviorReset st).1 ∧
    (postBehavior st { mode := none, errorCode := none, errorMessage := none,
                       delayMs := some (.num (-5)) }).1.delayMs = 0 := by
  refine ⟨⟨by decide, by decide⟩, fun hv => ⟨?_, ?_⟩,
    ⟨by show "normal" ∈ MODES; decide, by show (0 : Int) ≤ 0; decide⟩, ?_⟩
  · rcases postBehavior_mode_cases st p with h | h
    · rw [h]; exact hv.1
    · exact h
  · rcases postBehavior_delayMs_cases st p with h | h
    · rw [h]; exact hv.2
    · exact h
  · norm_num [postBehavior, strTruthy, jsOrNum, jsToNumber]

/-- C7, witness: a valid set call keeps the invariant, and `delayMs: -5` is
clamped to 0. -/
theorem C7_behavior_invariant_witness :
    validBehavior (postBehavior DEFAULT_BEHAVIOR
      { mode := some "timeout", errorCode := none, errorMessage := none,
        delayMs := some (.num 250) }).1 ∧
    (postBehavior DEFAULT_BEHAVIOR { mode := none, errorCode := none,
                                     errorMessage := none,
                                     delayMs := some (.num (-5)) }).1.delayMs = 0 :=
  ⟨(C7_behavior_invariant DEFAULT_BEHAVIOR
      { mode := some "timeout", errorCode := none, errorMessage := none,
        delayMs := some (.num 250) }).2.1 ⟨by decide, by decide⟩,
   (C7_behavior_invariant DEFAULT_BEHAVIOR
      { mode := none, errorCode := none, errorMessage := none,
        delayMs := none }).2.2.2⟩

/-- C8: for every upload request handled while mode = `normal`, a LogEntry is
recorded with `responseStatus = 200` and no note, and the response is 200
with body `{ok: true, message: "PDF received", filename: <attached file name
or null>}`; with no attached file the same path is taken, with the response
filename and the log's file metadata fields null. -/
theorem C8_normal_mode (b : Behavior) (req : ReqInfo) (log : List LogEntry) :
    b.mode = "normal" →
      (handle b b req log).2 =
        some { status := 200,
               body := UploadBody.ok true "PDF received"
                 (fileDisplayName req.file) } ∧
      (handle b b req log).1 = logReceived b req 200 none log ∧
      ((handle b b req log).1.head?.map LogEntry.responseStatus) = some 200 ∧
      ((handle b b req log).1.head?.map LogEntry.note) = some none ∧
      (req.file = none → req.files_pdf = none →
        fileDisplayName req.file = none ∧
        ((handle b b req log).1.head?.map LogEntry.fileName) = some none ∧
        ((handle b b req log).1.head?.map LogEntry.fileSize) = some none) := by
  intro hm
  have hresp : respond b req log =
      (logReceived b req 200 none log,
        some { status := 200,
               body := UploadBody.ok true "PDF received"
                 (fileDisplayName req.file) }) := by
    unfold respond
    rw [hm]
    simp
  rw [handle_same, hresp]
  refine ⟨rfl, rfl, ?_, ?_, fun hf hfp => ⟨?_, ?_, ?_⟩⟩
  · rw [head_logReceived]
    rfl
  · rw [head_logReceived]
    rfl
  · simp [fileDisplayName, hf]
  · rw [head_logReceived, Option.map_some']
    simp [mkLogEntry, hf, hfp, fileDisplayName]
  · rw [head_logReceived, Option.map_some']
    simp [mkLogEntry, hf, hfp]

/-- C8, witness: normal mode with an attached file ("doc.pdf") and, for the
edge case, with no attachment. -/
theorem C8_normal_mode_witness :
    (handle DEFAULT_BEHAVIOR DEFAULT_BEHAVIOR pdfReq []).2 =
      some { status := 200,
             body := UploadBody.ok true "PDF received" (some "doc.pdf") } ∧
    ((handle DEFAULT_BEHAVIOR DEFAULT_BEHAVIOR bareReq []).1.head?.map
      LogEntry.fileName) = some none := by
  have h1 := C8_normal_mode DEFAULT_BEHAVIOR pdfReq [] rfl
  have h2 := C8_normal_mode DEFAULT_BEHAVIOR bareReq [] rfl
  exact ⟨h1.1, (h2.2.2.2.2 rfl rfl).2.1⟩

/-- C9: for every prior state, `POST /api/behavior/reset` restores and
returns exactly the default Behavior (`normal`, 500, `""`, 0), and a
subsequent `GET /api/behavior` returns those same defaults. -/
theorem C9_reset_restores_defaults (st : Behavior) :
    postBehaviorReset st = (DEFAULT_BEHAVIOR, DEFAULT_BEHAVIOR) ∧
    getBehavior (postBehaviorReset st).1 = DEFAULT_BEHAVIOR ∧
    DEFAULT_BEHAVIOR =
      { mode := "normal", errorCode := 500, errorMessage := "", delayMs := 0 } :=
  ⟨rfl, rfl, rfl⟩

/-- C10: an empty `errorMessage` means "no override" throughout: the default
Behavior carries `errorMessage = ""`, `set({errorMessage: ""})` stores `""`
(clearing any previously configured custom message), and the Error-mode
resolution then uses the code→phrase table (or `"Error <code>"`). -/
theorem C10_empty_errorMessage_absent (st b : Behavior) (req : ReqInfo)
    (log : List LogEntry) :
    DEFAULT_BEHAVIOR.errorMessage = "" ∧
    (postBehavior st { mode := none, errorCode := none,
                       errorMessage := some "", delayMs := none }).1.errorMessage = "" ∧
    (b.mode = "error" → b.errorMessage = "" → b.errorCode ≠ 0 →
      (handle b b req log).2 =
        some { status := b.errorCode,
               body := .err (match ERROR_MESSAGES b.errorCode with
                 | some m => m
                 | none => "Error " ++ toString b.errorCode) }) := by
  refine ⟨rfl, ?_, fun hm hme hc => ?_⟩
  · simp [postBehavior, strTruthy]
  · rw [handle_same, respond_error b req log hm hc]
    simp [specEffectiveMessage, hme]

/-- C10, witness: `set({errorMessage: ""})` on a state with a configured
custom message clears it, and error mode with code 404 and cleared message
answers with the table phrase "Not Found". -/
theorem C10_empty_errorMessage_absent_witness :
    (postBehavior
      { mode := "error", errorCode := 404, errorMessage := "Custom", delayMs := 0 }
      { mode := none, errorCode := none, errorMessage := some "",
        delayMs := none }).1.errorMessage = "" ∧
    (handle { mode := "error", errorCode := 404, errorMessage := "", delayMs := 0 }
      { mode := "error", errorCode := 404, errorMessage := "", delayMs := 0 }
      bareReq []).2 = some { status := 404, body := .err "Not Found" } := by
  have h := C10_empty_errorMessage_absent
    { mode := "error", errorCode := 404, errorMessage := "Custom", delayMs := 0 }
    { mode := "error", errorCode := 404, errorMessage := "", delayMs := 0 }
    bareReq []
  exact ⟨h.2.1, h.2.2 rfl rfl (by decide)⟩
